import Mathlib

set_option maxHeartbeats 1000000

/-!
Verification development for the OpenCL vector-addition demo
(`opencl_example.cpp` and the stopwatch in `timer.cpp`/`timer.h`).

The stopwatch is embedded directly: a two-field record of rational wall-clock
instants; `Timer::now()` reads `gettimeofday`, which we model by passing the
current clock value of the surrounding world to `start`/`stop`.

`add_opencl` is a straight-line sequence of OpenCL API calls, each of which can
report a non-success status (or return a NULL handle) chosen by the external
platform.  We embed the platform as a `CLWorld` record of the statuses each
call returns, an opaque `kernelResult` oracle for the contents the on-device
kernel writes to the output buffer (the kernel source `opencl_example.cl` is
external text loaded at run time), and a wall-clock duration for each call.
`add_opencl` threads an explicit `AState` (host/device buffer contents, trace
of API calls issued, acquired and released resource lists, clock, timer) and
returns `Except Step ℚ`: `.error st` models `throw std::runtime_error(...)` at
step `st`, `.ok t` models returning `execution_timer.elapsed()`.
-/

namespace OpenCLDemo

/-! Stopwatch: `class Timer` from timer.cpp. -/

structure Timer where
  m_start : ℚ
  m_stop : ℚ
  deriving DecidableEq, Repr

-- Timer::Timer() : m_start(0.0), m_stop(0.0)
def Timer.init : Timer := { m_start := 0, m_stop := 0 }

-- void Timer::start() { m_start = now(); }
def Timer.start (t : Timer) (now : ℚ) : Timer := { t with m_start := now }

-- void Timer::stop() { m_stop = now(); }
def Timer.stop (t : Timer) (now : ℚ) : Timer := { t with m_stop := now }

-- double Timer::elapsed() const { return m_stop - m_start; }
def Timer.elapsed (t : Timer) : ℚ := t.m_stop - t.m_start

/-- A call to `start` or `stop`, carrying the wall-clock instant `now()`
returns at that moment. -/
inductive TimerOp where
  | opStart (now : ℚ)
  | opStop (now : ℚ)
  deriving DecidableEq, Repr

/-- Apply a sequence of `start`/`stop` calls to a timer. -/
def Timer.runOps (t : Timer) : List TimerOp → Timer
  | [] => t
  | .opStart x :: rest => (t.start x).runOps rest
  | .opStop x :: rest => (t.stop x).runOps rest

/-- The instant recorded by the last `start` call of the sequence,
or the default `d` when the sequence contains no `start`. -/
def lastStartVal (d : ℚ) : List TimerOp → ℚ
  | [] => d
  | .opStart x :: rest => lastStartVal x rest
  | .opStop _ :: rest => lastStartVal d rest

/-- The instant recorded by the last `stop` call of the sequence,
or the default `d` when the sequence contains no `stop`. -/
def lastStopVal (d : ℚ) : List TimerOp → ℚ
  | [] => d
  | .opStart _ :: rest => lastStopVal d rest
  | .opStop x :: rest => lastStopVal x rest

/-! Command-line parsing: the getopt_long loop in `main`, for the option
string "cg" and the longopts table `{ { "use-cpu", no_argument, 0, 'c' },
{ "use-gpu", no_argument, 0, 'g' } }`.  The table lacks the all-zero
terminator entry getopt_long requires, so any long-option lookup that scans
past the second entry (an unknown or abbreviated long option) reads past the
array: undefined behaviour.  An exact long-option name match breaks the scan
at its entry and is therefore still well defined. -/

-- the exact spelling pair that getopt_long maps to 'c' (long and short form)
def optCpu (s : String) : Bool := s = "--use-cpu" || s = "-c"

-- the exact spelling pair that getopt_long maps to 'g' (long and short form)
def optGpu (s : String) : Bool := s = "--use-gpu" || s = "-g"

/-- The first list is an initial segment of the second (character-level
prefix test). -/
def listPre : List Char → List Char → Bool
  | [], _ => true
  | _, [] => false
  | p :: ps, ch :: cs => p == ch && listPre ps cs

/-- How getopt_long treats one argv element under `main`'s tables. -/
inductive GetoptClass where
  | opts (cs : List Char)
  | endOfOpts
  | nonOption
  | undefinedScan
  deriving DecidableEq, Repr

/-- Classification of one argv element by getopt_long with optstring "cg" and
`main`'s unterminated two-entry longopts table:
"--" ends option processing; the two long names match exactly (the scan breaks
at the matching entry before reaching the missing terminator); a long name
followed by "=" matches exactly and yields '?' because the option takes no
argument; any other "--..." makes the lookup scan past the unterminated table
(undefined behaviour); any other "-..." is a cluster of short options, each
character resolved against "cg" ('?' for the rest); everything else, including
"-" itself, is a non-option argument that getopt permutes out of the way. -/
def classifyArg (s : String) : GetoptClass :=
  if s = "--" then .endOfOpts
  else if s = "--use-cpu" then .opts ['c']
  else if s = "--use-gpu" then .opts ['g']
  else if listPre "--use-cpu=".toList s.toList then .opts ['?']
  else if listPre "--use-gpu=".toList s.toList then .opts ['?']
  else if listPre ['-', '-'] s.toList then .undefinedScan
  else if listPre ['-'] s.toList && s != "-" then .opts (s.toList.drop 1)
  else .nonOption

/-- The `switch (o)` body of `main`, applied to each option character
getopt_long returns for one argv element: case 'c' sets `use_gpu = false`,
case 'g' sets `use_gpu = true`, and the `default:` case ('?' and any other
character) does nothing. -/
def applyOpts (use_gpu : Bool) : List Char → Bool
  | [] => use_gpu
  | ch :: rest =>
    if ch = 'c' then applyOpts false rest
    else if ch = 'g' then applyOpts true rest
    else applyOpts use_gpu rest

/-- The `while ((o = getopt_long(...)) != -1)` loop of `main`: process the
option characters of each argument in turn, skip non-options, stop at "--",
and propagate `none` when getopt_long's table scan runs into undefined
behaviour. -/
def getopt_long_loop (use_gpu : Bool) : List String → Option Bool
  | [] => some use_gpu
  | s :: rest =>
    match classifyArg s with
    | .opts cs => getopt_long_loop (applyOpts use_gpu cs) rest
    | .endOfOpts => some use_gpu
    | .nonOption => getopt_long_loop use_gpu rest
    | .undefinedScan => none

/-- The value of `use_gpu` after `main`'s option loop, starting from the
declaration `bool use_gpu = false;` — `none` when the loop runs into the
undefined scan past the unterminated longopts table. -/
def main_use_gpu (args : List String) : Option Bool := getopt_long_loop false args

/-- The argument neither stops the loop nor reaches undefined behaviour:
it is an option cluster or a skipped non-option. -/
def keepsScanning (s : String) : Bool :=
  match classifyArg s with
  | .opts _ => true
  | .nonOption => true
  | _ => false

/-- Selection accumulated over a list of arguments that all keep the scan
going. -/
def scanAcc (use_gpu : Bool) : List String → Bool
  | [] => use_gpu
  | s :: rest =>
    match classifyArg s with
    | .opts cs => scanAcc (applyOpts use_gpu cs) rest
    | _ => scanAcc use_gpu rest

/-! The compute-offload driver `add_opencl`. -/

/-- The steps of `add_opencl`, named after the OpenCL API call each one
makes (`resultValidation` is the host-side check loop, not an API call).
The same type serves as the error raised when a step fails. -/
inductive Step where
  | clGetDeviceIDs
  | clCreateContext
  | clCreateCommandQueue
  | clCreateProgramWithSource
  | clBuildProgram
  | clCreateKernel
  | clCreateBuffer
  | clEnqueueWriteBuffer
  | clSetKernelArg
  | clGetKernelWorkGroupInfo
  | clEnqueueNDRangeKernel
  | clFinish
  | clEnqueueReadBuffer
  | resultValidation
  deriving DecidableEq, Repr

/-- The string passed to `std::runtime_error` when the step fails. -/
def Step.message : Step → String
  | .clGetDeviceIDs => "clGetDeviceIDs"
  | .clCreateContext => "clCreateContext"
  | .clCreateCommandQueue => "clCreateCommandQueue"
  | .clCreateProgramWithSource => "clCreateProgramWithSource"
  | .clBuildProgram => "clBuildProgram"
  | .clCreateKernel => "clCreateKernel"
  | .clCreateBuffer => "clCreateBuffer"
  | .clEnqueueWriteBuffer => "clEnqueueWriteBuffer"
  | .clSetKernelArg => "clSetKernelArg"
  | .clGetKernelWorkGroupInfo => "clGetKernelWorkGroupInfo"
  | .clEnqueueNDRangeKernel => "clEnqueueNDRangeKernel"
  | .clFinish => "clFinish"
  | .clEnqueueReadBuffer => "clEnqueueReadBuffer"
  | .resultValidation => "Result validation failed"

/-- The device resources `add_opencl` acquires and releases. -/
inductive Res where
  | a_device
  | b_device
  | c_device
  | program
  | kernel
  | commands
  | context
  deriving DecidableEq, Repr

/-- The external OpenCL platform: the status (0 = CL_SUCCESS, statuses taken
as 32-bit patterns) or handle-validity each API call returns, the opaque
on-device kernel, and the wall-clock behaviour of each call. -/
structure CLWorld where
  -- clGetDeviceIDs status; it may depend on the requested device class.
  getDeviceIDs_status : Bool → Nat
  -- clCreateContext returned a non-NULL context
  createContext_ret : Bool
  -- clCreateCommandQueue returned a non-NULL queue
  createCommandQueue_ret : Bool
  -- clCreateProgramWithSource returned a non-NULL program
  createProgramWithSource_ret : Bool
  buildProgram_status : Nat
  -- clCreateKernel returns both a handle and a status; the code checks both
  createKernel_ret : Bool
  createKernel_status : Nat
  createBufferA_ret : Bool
  createBufferB_ret : Bool
  createBufferC_ret : Bool
  writeA_status : Nat
  writeB_status : Nat
  setArg0_status : Nat
  setArg1_status : Nat
  setArg2_status : Nat
  workGroupInfo_status : Nat
  ndrange_status : Nat
  read_status : Nat
  -- status returned by clFinish at line 138; the code discards it, so a
  -- non-success here never aborts the run
  finish_status : Nat
  -- statuses returned by the seven clRelease* calls at lines 155-161; the
  -- code discards them as well
  release_status : Res → Nat
  -- uninitialised contents of freshly created device buffers
  junkA : Nat → Int
  junkB : Nat → Int
  junkC : Nat → Int
  -- the opaque on-device kernel ("add" from opencl_example.cl, external
  -- text): the new contents of c_device after a dispatch of global size N,
  -- given the device class and the two input device buffers
  kernelResult : Bool → (Nat → Int) → (Nat → Int) → Nat → Nat → Int
  -- wall-clock duration consumed by the API call made at each step
  dur : Step → ℚ
  -- wall-clock instant when add_opencl starts
  clock0 : ℚ

/-- The state threaded through `add_opencl`: the caller's output buffer,
the three device buffers, the trace of API calls issued so far, the device
resources acquired and released so far, the wall clock, and the stopwatch. -/
structure AState where
  c_host : Nat → Int
  a_dev : Nat → Int
  b_dev : Nat → Int
  c_dev : Nat → Int
  trace : List Step
  acquired : List Res
  released : List Res
  clock : ℚ
  execution_timer : Timer

/-- Issue the API call of step `st`: record it in the trace and advance the
wall clock by the call's duration. -/
def tick (w : CLWorld) (st : Step) (s : AState) : AState :=
  { s with trace := s.trace ++ [st], clock := s.clock + w.dur st }

def acquire (r : Res) (s : AState) : AState :=
  { s with acquired := s.acquired ++ [r] }

def release (r : Res) (s : AState) : AState :=
  { s with released := s.released ++ [r] }

/-- Shallow embedding of `float add_opencl(bool use_gpu, int* c_host,
int* a_host, int* b_host, int N)`.  Each `if ... then (.error st, s)` mirrors
`throw std::runtime_error(Step.message st)` in the source. -/
def add_opencl (w : CLWorld) (use_gpu : Bool) (c_host a_host b_host : Nat → Int)
    (N : Nat) : Except Step ℚ × AState :=
  let s : AState :=
    { c_host := c_host, a_dev := w.junkA, b_dev := w.junkB, c_dev := w.junkC,
      trace := [], acquired := [], released := [], clock := w.clock0,
      execution_timer := Timer.init }
  -- cl_int err = clGetDeviceIDs(NULL, use_gpu ? GPU : CPU, 1, &device_id, NULL);
  let s := tick w .clGetDeviceIDs s
  if w.getDeviceIDs_status use_gpu ≠ 0 then (.error .clGetDeviceIDs, s) else
  -- cl_context context = clCreateContext(...); if (!context) throw
  let s := tick w .clCreateContext s
  if ¬ w.createContext_ret then (.error .clCreateContext, s) else
  let s := acquire .context s
  -- cl_command_queue commands = clCreateCommandQueue(...); if (!commands) throw
  let s := tick w .clCreateCommandQueue s
  if ¬ w.createCommandQueue_ret then (.error .clCreateCommandQueue, s) else
  let s := acquire .commands s
  -- (the std::ifstream read of opencl_example.cl is host-only, no API call)
  -- cl_program program = clCreateProgramWithSource(...); if (!program) throw
  let s := tick w .clCreateProgramWithSource s
  if ¬ w.createProgramWithSource_ret then (.error .clCreateProgramWithSource, s) else
  let s := acquire .program s
  -- err = clBuildProgram(program, 0, NULL, NULL, NULL, NULL);
  let s := tick w .clBuildProgram s
  if w.buildProgram_status ≠ 0 then (.error .clBuildProgram, s) else
  -- cl_kernel kernel = clCreateKernel(program, "add", &err);
  -- if (!kernel || err != CL_SUCCESS) throw
  let s := tick w .clCreateKernel s
  if ¬ w.createKernel_ret ∨ w.createKernel_status ≠ 0 then (.error .clCreateKernel, s) else
  let s := acquire .kernel s
  -- three clCreateBuffer calls (a_device, b_device, c_device), then one check
  let s := tick w .clCreateBuffer s
  let s := if w.createBufferA_ret then acquire .a_device s else s
  let s := tick w .clCreateBuffer s
  let s := if w.createBufferB_ret then acquire .b_device s else s
  let s := tick w .clCreateBuffer s
  let s := if w.createBufferC_ret then acquire .c_device s else s
  if ¬ w.createBufferA_ret ∨ ¬ w.createBufferB_ret ∨ ¬ w.createBufferC_ret then
    (.error .clCreateBuffer, s) else
  -- err = clEnqueueWriteBuffer(commands, a_device, CL_TRUE, 0, sizeof(int)*N, a_host, ...)
  let s := tick w .clEnqueueWriteBuffer s
  if w.writeA_status ≠ 0 then (.error .clEnqueueWriteBuffer, s) else
  let s := { s with a_dev := fun i => if i < N then a_host i else s.a_dev i }
  -- err = clEnqueueWriteBuffer(commands, b_device, CL_TRUE, 0, sizeof(int)*N, b_host, ...)
  let s := tick w .clEnqueueWriteBuffer s
  if w.writeB_status ≠ 0 then (.error .clEnqueueWriteBuffer, s) else
  let s := { s with b_dev := fun i => if i < N then b_host i else s.b_dev i }
  -- err  = clSetKernelArg(kernel, 0, ...); err |= clSetKernelArg(kernel, 1, ...);
  -- err |= clSetKernelArg(kernel, 2, ...); if (err != CL_SUCCESS) throw
  let s := tick w .clSetKernelArg s
  let s := tick w .clSetKernelArg s
  let s := tick w .clSetKernelArg s
  if w.setArg0_status ||| w.setArg1_status ||| w.setArg2_status ≠ 0 then
    (.error .clSetKernelArg, s) else
  -- err = clGetKernelWorkGroupInfo(kernel, device_id, CL_KERNEL_WORK_GROUP_SIZE, ...)
  let s := tick w .clGetKernelWorkGroupInfo s
  if w.workGroupInfo_status ≠ 0 then (.error .clGetKernelWorkGroupInfo, s) else
  -- Timer execution_timer; execution_timer.start();
  let s := { s with execution_timer := s.execution_timer.start s.clock }
  -- err = clEnqueueNDRangeKernel(commands, kernel, 1, NULL, &global_size, &local_size, ...)
  let s := tick w .clEnqueueNDRangeKernel s
  if w.ndrange_status ≠ 0 then (.error .clEnqueueNDRangeKernel, s) else
  -- the dispatched kernel rewrites c_device from the input device buffers
  let s := { s with c_dev := w.kernelResult use_gpu s.a_dev s.b_dev N }
  -- clFinish(commands);   (return value ignored by the code)
  let s := tick w .clFinish s
  -- execution_timer.stop();
  let s := { s with execution_timer := s.execution_timer.stop s.clock }
  -- err = clEnqueueReadBuffer(commands, c_device, CL_TRUE, 0, sizeof(int)*N, c_host, ...)
  let s := tick w .clEnqueueReadBuffer s
  if w.read_status ≠ 0 then (.error .clEnqueueReadBuffer, s) else
  let s := { s with c_host := fun i => if i < N then s.c_dev i else s.c_host i }
  -- for (size_t i = 0; i < N; i++)
  --   if (c_host[i] != a_host[i] + b_host[i]) throw "Result validation failed"
  if (List.range N).any (fun i => decide (s.c_host i ≠ a_host i + b_host i)) then
    (.error .resultValidation, s) else
  -- clReleaseMemObject(a_device); clReleaseMemObject(b_device);
  -- clReleaseMemObject(c_device); clReleaseProgram(program);
  -- clReleaseKernel(kernel); clReleaseCommandQueue(commands);
  -- clReleaseContext(context);
  let s := release .a_device s
  let s := release .b_device s
  let s := release .c_device s
  let s := release .program s
  let s := release .kernel s
  let s := release .commands s
  let s := release .context s
  -- return execution_timer.elapsed();
  (.ok s.execution_timer.elapsed, s)

/-! Derived descriptions of the run, used to state the theorems. -/

/-- Contents of an input device buffer after the blocking host-to-device copy
of `N` ints: the first `N` entries come from the host array, the rest keep the
uninitialised contents. -/
def devContents (junk host : Nat → Int) (N : Nat) : Nat → Int :=
  fun i => if i < N then host i else junk i

/-- Contents of the caller's output buffer after the device-to-host read-back:
the first `N` entries are what the dispatched kernel wrote to `c_device`, the
rest are the caller's original contents. -/
def finalOutput (w : CLWorld) (use_gpu : Bool) (c_host a_host b_host : Nat → Int)
    (N : Nat) : Nat → Int :=
  fun i =>
    if i < N then
      w.kernelResult use_gpu (devContents w.junkA a_host N)
        (devContents w.junkB b_host N) N i
    else c_host i

/-- Every API status the code checks reports success (a zero status, or a
non-NULL handle where the code checks the handle).  The statuses of `clFinish`
and of the seven `clRelease*` calls are absent: the code discards them without
checking. -/
def stepsOk (w : CLWorld) (use_gpu : Bool) : Prop :=
  w.getDeviceIDs_status use_gpu = 0 ∧ w.createContext_ret = true ∧
  w.createCommandQueue_ret = true ∧ w.createProgramWithSource_ret = true ∧
  w.buildProgram_status = 0 ∧
  (w.createKernel_ret = true ∧ w.createKernel_status = 0) ∧
  (w.createBufferA_ret = true ∧ w.createBufferB_ret = true ∧
    w.createBufferC_ret = true) ∧
  w.writeA_status = 0 ∧ w.writeB_status = 0 ∧
  (w.setArg0_status = 0 ∧ w.setArg1_status = 0 ∧ w.setArg2_status = 0) ∧
  w.workGroupInfo_status = 0 ∧ w.ndrange_status = 0 ∧ w.read_status = 0

instance (w : CLWorld) (g : Bool) : Decidable (stepsOk w g) := by
  unfold stepsOk; infer_instance

/-- The host-side validation loop finds no mismatch: every read-back output
entry equals the sum of the corresponding host inputs. -/
def validationOk (w : CLWorld) (use_gpu : Bool) (c_host a_host b_host : Nat → Int)
    (N : Nat) : Prop :=
  ∀ i < N, finalOutput w use_gpu c_host a_host b_host N i = a_host i + b_host i

instance (w : CLWorld) (g : Bool) (c a b : Nat → Int) (N : Nat) :
    Decidable (validationOk w g c a b N) := by
  unfold validationOk; exact Nat.decidableBallLT N _

/-- The compute API (or the validation loop) reports a failure at the given
step of the run — whether or not the code checks that status: the status of
`clFinish` is reported by the API but discarded by the code. -/
def failsAt (w : CLWorld) (use_gpu : Bool) (c_host a_host b_host : Nat → Int)
    (N : Nat) : Step → Prop
  | .clGetDeviceIDs => w.getDeviceIDs_status use_gpu ≠ 0
  | .clCreateContext => w.createContext_ret = false
  | .clCreateCommandQueue => w.createCommandQueue_ret = false
  | .clCreateProgramWithSource => w.createProgramWithSource_ret = false
  | .clBuildProgram => w.buildProgram_status ≠ 0
  | .clCreateKernel => w.createKernel_ret = false ∨ w.createKernel_status ≠ 0
  | .clCreateBuffer =>
      w.createBufferA_ret = false ∨ w.createBufferB_ret = false ∨
        w.createBufferC_ret = false
  | .clEnqueueWriteBuffer => w.writeA_status ≠ 0 ∨ w.writeB_status ≠ 0
  | .clSetKernelArg =>
      w.setArg0_status ≠ 0 ∨ w.setArg1_status ≠ 0 ∨ w.setArg2_status ≠ 0
  | .clGetKernelWorkGroupInfo => w.workGroupInfo_status ≠ 0
  | .clEnqueueNDRangeKernel => w.ndrange_status ≠ 0
  | .clFinish => w.finish_status ≠ 0
  | .clEnqueueReadBuffer => w.read_status ≠ 0
  | .resultValidation => ¬ validationOk w use_gpu c_host a_host b_host N

/-- The order in which the happy path releases the device resources
(lines 155-161 of opencl_example.cpp). -/
def releaseOrder : List Res :=
  [.a_device, .b_device, .c_device, .program, .kernel, .commands, .context]

/-- The order in which the happy path acquires the device resources. -/
def acquireOrder : List Res :=
  [.context, .commands, .program, .kernel, .a_device, .b_device, .c_device]

theorem lor_eq_zero (m n : Nat) : m ||| n = 0 ↔ m = 0 ∧ n = 0 := by
  constructor
  · intro h
    refine ⟨Nat.zero_of_testBit_eq_false fun i => ?_,
      Nat.zero_of_testBit_eq_false fun i => ?_⟩ <;>
    · have hb := congrArg (fun x => Nat.testBit x i) h
      simp only [Nat.testBit_lor, Nat.zero_testBit, Bool.or_eq_false_iff] at hb
      tauto
  · rintro ⟨rfl, rfl⟩; rfl



theorem devContents_eq (junk host : Nat → Int) (N : Nat) :
    devContents junk host N = fun i => if i < N then host i else junk i := rfl

theorem run_ok_spec (w : CLWorld) (g : Bool) (c a b : Nat → Int) (N : Nat) (t : ℚ)
    (h : (add_opencl w g c a b N).1 = .ok t) :
    stepsOk w g ∧ validationOk w g c a b N ∧
      t = w.dur .clEnqueueNDRangeKernel + w.dur .clFinish ∧
      (add_opencl w g c a b N).2.c_host = finalOutput w g c a b N ∧
      (add_opencl w g c a b N).2.released = releaseOrder ∧
      (add_opencl w g c a b N).2.acquired = acquireOrder := by
  by_cases h1 : w.getDeviceIDs_status g = 0
  case neg => simp [add_opencl, h1] at h
  by_cases h2 : w.createContext_ret = true
  case neg => simp [add_opencl, h1, h2] at h
  by_cases h3 : w.createCommandQueue_ret = true
  case neg => simp [add_opencl, h1, h2, h3] at h
  by_cases h4 : w.createProgramWithSource_ret = true
  case neg => simp [add_opencl, h1, h2, h3, h4] at h
  by_cases h5 : w.buildProgram_status = 0
  case neg => simp [add_opencl, h1, h2, h3, h4, h5] at h
  by_cases h6 : w.createKernel_ret = true
  case neg => simp [add_opencl, h1, h2, h3, h4, h5, h6] at h
  by_cases h7 : w.createKernel_status = 0
  case neg => simp [add_opencl, h1, h2, h3, h4, h5, h6, h7] at h
  by_cases h8 : w.createBufferA_ret = true
  case neg => simp [add_opencl, h1, h2, h3, h4, h5, h6, h7, h8] at h
  by_cases h9 : w.createBufferB_ret = true
  case neg => simp [add_opencl, h1, h2, h3, h4, h5, h6, h7, h8, h9] at h
  by_cases h10 : w.createBufferC_ret = true
  case neg => simp [add_opencl, h1, h2, h3, h4, h5, h6, h7, h8, h9, h10] at h
  by_cases h11 : w.writeA_status = 0
  case neg => simp [add_opencl, h1, h2, h3, h4, h5, h6, h7, h8, h9, h10, h11] at h
  by_cases h12 : w.writeB_status = 0
  case neg => simp [add_opencl, h1, h2, h3, h4, h5, h6, h7, h8, h9, h10, h11, h12] at h
  by_cases h13 : w.setArg0_status ||| w.setArg1_status ||| w.setArg2_status = 0
  case neg => simp [add_opencl, h1, h2, h3, h4, h5, h6, h7, h8, h9, h10, h11, h12, h13] at h
  by_cases h14 : w.workGroupInfo_status = 0
  case neg => simp [add_opencl, h1, h2, h3, h4, h5, h6, h7, h8, h9, h10, h11, h12, h13, h14] at h
  by_cases h15 : w.ndrange_status = 0
  case neg =>
    simp [add_opencl, h1, h2, h3, h4, h5, h6, h7, h8, h9, h10, h11, h12, h13, h14, h15] at h
  by_cases h16 : w.read_status = 0
  case neg =>
    simp [add_opencl, h1, h2, h3, h4, h5, h6, h7, h8, h9, h10, h11, h12, h13, h14, h15, h16] at h
  rw [lor_eq_zero, lor_eq_zero] at h13
  simp [add_opencl, h1, h2, h3, h4, h5, h6, h7, h8, h9, h10, h11, h12, h13.1.1, h13.1.2, h13.2,
    h14, h15, h16, tick, acquire, release, Timer.init, Timer.start, Timer.stop, Timer.elapsed,
    apply_ite (@Prod.fst (Except Step ℚ) AState)] at h
  split at h
  · simp at h
  rename_i hval
  rw [Except.ok.injEq] at h
  have hsteps : stepsOk w g :=
    ⟨h1, h2, h3, h4, h5, ⟨h6, h7⟩, ⟨h8, h9, h10⟩, h11, h12,
      ⟨h13.1.1, h13.1.2, h13.2⟩, h14, h15, h16⟩
  have hvOk : validationOk w g c a b N := by
    push_neg at hval
    intro i hi
    have hv := hval i hi
    rw [if_pos hi] at hv
    simpa [finalOutput, devContents, hi] using hv
  refine ⟨hsteps, hvOk, by rw [← h]; ring, ?_, ?_, ?_⟩
  · funext i
    simp [add_opencl, h1, h2, h3, h4, h5, h6, h7, h8, h9, h10, h11, h12, h13.1.1, h13.1.2,
      h13.2, h14, h15, h16, hval, tick, acquire, release, finalOutput, devContents_eq]
  · simp [add_opencl, h1, h2, h3, h4, h5, h6, h7, h8, h9, h10, h11, h12, h13.1.1, h13.1.2,
      h13.2, h14, h15, h16, hval, tick, acquire, release, releaseOrder]
  · simp [add_opencl, h1, h2, h3, h4, h5, h6, h7, h8, h9, h10, h11, h12, h13.1.1, h13.1.2,
      h13.2, h14, h15, h16, hval, tick, acquire, release, acquireOrder]



theorem run_error_spec (w : CLWorld) (g : Bool) (c a b : Nat → Int) (N : Nat) (e : Step)
    (h : (add_opencl w g c a b N).1 = .error e) :
    failsAt w g c a b N e ∧ (add_opencl w g c a b N).2.released = [] := by
  by_cases h1 : w.getDeviceIDs_status g = 0
  case neg =>
    simp [add_opencl, h1] at h
    subst h
    exact ⟨h1, by simp [add_opencl, h1, tick, acquire]⟩
  by_cases h2 : w.createContext_ret = true
  case neg =>
    simp [add_opencl, h1, h2] at h
    subst h
    exact ⟨by simp [failsAt, h2], by simp [add_opencl, h1, h2, tick, acquire]⟩
  by_cases h3 : w.createCommandQueue_ret = true
  case neg =>
    simp [add_opencl, h1, h2, h3] at h
    subst h
    exact ⟨by simp [failsAt, h3], by simp [add_opencl, h1, h2, h3, tick, acquire]⟩
  by_cases h4 : w.createProgramWithSource_ret = true
  case neg =>
    simp [add_opencl, h1, h2, h3, h4] at h
    subst h
    exact ⟨by simp [failsAt, h4], by simp [add_opencl, h1, h2, h3, h4, tick, acquire]⟩
  by_cases h5 : w.buildProgram_status = 0
  case neg =>
    simp [add_opencl, h1, h2, h3, h4, h5] at h
    subst h
    exact ⟨h5, by simp [add_opencl, h1, h2, h3, h4, h5, tick, acquire]⟩
  by_cases h6 : w.createKernel_ret = true
  case neg =>
    simp [add_opencl, h1, h2, h3, h4, h5, h6] at h
    subst h
    exact ⟨by simp [failsAt, h6], by simp [add_opencl, h1, h2, h3, h4, h5, h6, tick, acquire]⟩
  by_cases h7 : w.createKernel_status = 0
  case neg =>
    simp [add_opencl, h1, h2, h3, h4, h5, h6, h7] at h
    subst h
    exact ⟨by simp [failsAt, h7],
      by simp [add_opencl, h1, h2, h3, h4, h5, h6, h7, tick, acquire]⟩
  by_cases h8 : w.createBufferA_ret = true
  case neg =>
    simp [add_opencl, h1, h2, h3, h4, h5, h6, h7, h8] at h
    subst h
    exact ⟨by simp [failsAt, h8],
      by simp [add_opencl, h1, h2, h3, h4, h5, h6, h7, h8, tick, acquire,
        apply_ite AState.released]⟩
  by_cases h9 : w.createBufferB_ret = true
  case neg =>
    simp [add_opencl, h1, h2, h3, h4, h5, h6, h7, h8, h9] at h
    subst h
    exact ⟨by simp [failsAt, h9],
      by simp [add_opencl, h1, h2, h3, h4, h5, h6, h7, h8, h9, tick, acquire,
        apply_ite AState.released]⟩
  by_cases h10 : w.createBufferC_ret = true
  case neg =>
    simp [add_opencl, h1, h2, h3, h4, h5, h6, h7, h8, h9, h10] at h
    subst h
    exact ⟨by simp [failsAt, h10],
      by simp [add_opencl, h1, h2, h3, h4, h5, h6, h7, h8, h9, h10, tick, acquire,
        apply_ite AState.released]⟩
  by_cases h11 : w.writeA_status = 0
  case neg =>
    simp [add_opencl, h1, h2, h3, h4, h5, h6, h7, h8, h9, h10, h11] at h
    subst h
    exact ⟨Or.inl h11,
      by simp [add_opencl, h1, h2, h3, h4, h5, h6, h7, h8, h9, h10, h11, tick, acquire]⟩
  by_cases h12 : w.writeB_status = 0
  case neg =>
    simp [add_opencl, h1, h2, h3, h4, h5, h6, h7, h8, h9, h10, h11, h12] at h
    subst h
    exact ⟨Or.inr h12,
      by simp [add_opencl, h1, h2, h3, h4, h5, h6, h7, h8, h9, h10, h11, h12, tick, acquire]⟩
  by_cases h13 : w.setArg0_status ||| w.setArg1_status ||| w.setArg2_status = 0
  case neg =>
    simp [add_opencl, h1, h2, h3, h4, h5, h6, h7, h8, h9, h10, h11, h12, h13] at h
    subst h
    have hrel : (add_opencl w g c a b N).2.released = [] := by
      simp [add_opencl, h1, h2, h3, h4, h5, h6, h7, h8, h9, h10, h11, h12, h13, tick, acquire]
    rw [lor_eq_zero, lor_eq_zero] at h13
    exact ⟨by tauto, hrel⟩
  by_cases h14 : w.workGroupInfo_status = 0
  case neg =>
    simp [add_opencl, h1, h2, h3, h4, h5, h6, h7, h8, h9, h10, h11, h12, h13, h14] at h
    subst h
    exact ⟨h14,
      by simp [add_opencl, h1, h2, h3, h4, h5, h6, h7, h8, h9, h10, h11, h12, h13, h14,
        tick, acquire]⟩
  by_cases h15 : w.ndrange_status = 0
  case neg =>
    simp [add_opencl, h1, h2, h3, h4, h5, h6, h7, h8, h9, h10, h11, h12, h13, h14, h15] at h
    subst h
    exact ⟨h15,
      by simp [add_opencl, h1, h2, h3, h4, h5, h6, h7, h8, h9, h10, h11, h12, h13, h14, h15,
        tick, acquire]⟩
  by_cases h16 : w.read_status = 0
  case neg =>
    simp [add_opencl, h1, h2, h3, h4, h5, h6, h7, h8, h9, h10, h11, h12, h13, h14, h15,
      h16] at h
    subst h
    exact ⟨h16,
      by simp [add_opencl, h1, h2, h3, h4, h5, h6, h7, h8, h9, h10, h11, h12, h13, h14, h15,
        h16, tick, acquire]⟩
  rw [lor_eq_zero, lor_eq_zero] at h13
  simp [add_opencl, h1, h2, h3, h4, h5, h6, h7, h8, h9, h10, h11, h12, h13.1.1, h13.1.2,
    h13.2, h14, h15, h16, tick, acquire, release, Timer.init, Timer.start, Timer.stop,
    Timer.elapsed, apply_ite (@Prod.fst (Except Step ℚ) AState)] at h
  split at h
  case _ hval =>
    simp only [Except.error.injEq] at h
    subst h
    constructor
    · intro hv
      obtain ⟨i, hi, hne⟩ := hval
      rw [if_pos hi] at hne
      have hvi := hv i hi
      simp only [finalOutput, devContents] at hvi
      rw [if_pos hi] at hvi
      exact hne hvi
    · simp [add_opencl, h1, h2, h3, h4, h5, h6, h7, h8, h9, h10, h11, h12, h13.1.1, h13.1.2,
        h13.2, h14, h15, h16, hval, tick, acquire, release]
  case _ hval => simp at h



theorem run_complete (w : CLWorld) (g : Bool) (c a b : Nat → Int) (N : Nat)
    (hs : stepsOk w g) (hv : validationOk w g c a b N) :
    ∃ t, (add_opencl w g c a b N).1 = .ok t := by
  obtain ⟨s1, s2, s3, s4, s5, ⟨s6, s7⟩, ⟨s8, s9, s10⟩, s11, s12, ⟨s13a, s13b, s13c⟩,
    s14, s15, s16⟩ := hs
  have hval : ¬ ∃ x, x < N ∧
      ¬(if x < N then w.kernelResult g (fun i => if i < N then a i else w.junkA i)
          (fun i => if i < N then b i else w.junkB i) N x else c x) = a x + b x := by
    rintro ⟨i, hi, hne⟩
    rw [if_pos hi] at hne
    have hvi := hv i hi
    simp only [finalOutput, devContents] at hvi
    rw [if_pos hi] at hvi
    exact hne hvi
  refine ⟨w.dur .clEnqueueNDRangeKernel + w.dur .clFinish, ?_⟩
  simp [add_opencl, s1, s2, s3, s4, s5, s6, s7, s8, s9, s10, s11, s12,
    s13a, s13b, s13c, s14, s15, s16, hval, tick, acquire, release,
    Timer.init, Timer.start, Timer.stop, Timer.elapsed]
  ring

theorem failsAt_none (w : CLWorld) (g : Bool) (c a b : Nat → Int) (N : Nat)
    (hs : stepsOk w g) (hv : validationOk w g c a b N) (e : Step)
    (hne : e ≠ .clFinish) : ¬ failsAt w g c a b N e := by
  obtain ⟨s1, s2, s3, s4, s5, ⟨s6, s7⟩, ⟨s8, s9, s10⟩, s11, s12, ⟨s13a, s13b, s13c⟩,
    s14, s15, s16⟩ := hs
  cases e
  case clFinish => exact absurd rfl hne
  all_goals simp [failsAt, s1, s2, s3, s4, s5, s6, s7, s8, s9, s10, s11, s12, s13a,
    s13b, s13c, s14, s15, s16, hv]

theorem run_error_ne_finish (w : CLWorld) (g : Bool) (c a b : Nat → Int) (N : Nat)
    (e : Step) (h : (add_opencl w g c a b N).1 = .error e) : e ≠ .clFinish := by
  rintro rfl
  have h0 : (add_opencl { w with finish_status := 0 } g c a b N).1 =
      .error .clFinish := h
  have hf := (run_error_spec _ g c a b N .clFinish h0).1
  simp [failsAt] at hf

theorem getopt_loop_append_scan (xs : List String) :
    ∀ (g : Bool) (ys : List String), (∀ x ∈ xs, keepsScanning x = true) →
      getopt_long_loop g (xs ++ ys) = getopt_long_loop (scanAcc g xs) ys := by
  induction xs with
  | nil => intro g ys _; rfl
  | cons s rest ih =>
    intro g ys h
    have hs := h s (List.mem_cons_self s rest)
    have hrest : ∀ x ∈ rest, keepsScanning x = true :=
      fun x hx => h x (List.mem_cons_of_mem s hx)
    simp only [List.cons_append, getopt_long_loop, scanAcc]
    cases hcl : classifyArg s with
    | opts cs => simp only [hcl]; exact ih (applyOpts g cs) ys hrest
    | endOfOpts => simp [keepsScanning, hcl] at hs
    | nonOption => simp only [hcl]; exact ih g ys hrest
    | undefinedScan => simp [keepsScanning, hcl] at hs

theorem getopt_loop_skip (s : String) (hs : classifyArg s = .nonOption)
    (xs : List String) :
    ∀ (g : Bool) (ys : List String),
      getopt_long_loop g (xs ++ s :: ys) = getopt_long_loop g (xs ++ ys) := by
  induction xs with
  | nil =>
    intro g ys
    simp [getopt_long_loop, hs]
  | cons x rest ih =>
    intro g ys
    simp only [List.cons_append, getopt_long_loop]
    cases hx : classifyArg x <;> simp [ih]

theorem getopt_loop_dashdash (xs : List String) :
    ∀ (g : Bool) (ys : List String),
      getopt_long_loop g (xs ++ "--" :: ys) = getopt_long_loop g xs := by
  induction xs with
  | nil => intro g ys; rfl
  | cons x rest ih =>
    intro g ys
    simp only [List.cons_append, getopt_long_loop]
    cases hx : classifyArg x <;> simp [ih]

theorem runOps_fields (t : Timer) (ops : List TimerOp) :
    (Timer.runOps t ops).m_start = lastStartVal t.m_start ops ∧
    (Timer.runOps t ops).m_stop = lastStopVal t.m_stop ops := by
  induction ops generalizing t with
  | nil => exact ⟨rfl, rfl⟩
  | cons o rest ih =>
    cases o with
    | opStart x =>
      simpa [Timer.runOps, lastStartVal, lastStopVal, Timer.start] using ih (t.start x)
    | opStop x =>
      simpa [Timer.runOps, lastStartVal, lastStopVal, Timer.stop] using ih (t.stop x)

/-! Concrete platform instances, used to exhibit the theorems at work. -/

/-- Concrete input array A. -/
def hostA : Nat → Int := fun i => (i : Int)

/-- Concrete input array B. -/
def hostB : Nat → Int := fun i => 2 * (i : Int) + 1

/-- Concrete pre-allocated output buffer (zero-filled). -/
def hostC : Nat → Int := fun _ => 0

/-- A platform on which every API call succeeds and the device kernel
computes the element-wise sum over the dispatched range (and device-class
dependent garbage beyond it, which the read-back never copies). -/
def okWorld : CLWorld where
  getDeviceIDs_status := fun _ => 0
  createContext_ret := true
  createCommandQueue_ret := true
  createProgramWithSource_ret := true
  buildProgram_status := 0
  createKernel_ret := true
  createKernel_status := 0
  createBufferA_ret := true
  createBufferB_ret := true
  createBufferC_ret := true
  writeA_status := 0
  writeB_status := 0
  setArg0_status := 0
  setArg1_status := 0
  setArg2_status := 0
  workGroupInfo_status := 0
  ndrange_status := 0
  read_status := 0
  finish_status := 0
  release_status := fun _ => 0
  junkA := fun _ => 0
  junkB := fun _ => 0
  junkC := fun _ => 0
  kernelResult := fun gpu aD bD n i => if i < n then aD i + bD i else if gpu then 7 else 9
  dur := fun _ => 0
  clock0 := 0

/-- Same platform, but `clBuildProgram` reports a non-success status. -/
def buildFailWorld : CLWorld := { okWorld with buildProgram_status := 1 }

/-- Same platform, but the first `clCreateBuffer` returns NULL. -/
def bufFailWorld : CLWorld := { okWorld with createBufferA_ret := false }

/-- Same platform, but `clFinish` and every `clRelease*` call report a
non-success status — which the code discards. -/
def finishFailWorld : CLWorld :=
  { okWorld with finish_status := 5, release_status := fun _ => 5 }

/-- Same platform, with nonzero wall-clock durations: the dispatch takes 3
seconds, the blocking wait 4 seconds, every other call 100 seconds. -/
def timedWorld : CLWorld :=
  { okWorld with
    dur := fun st =>
      if st = .clEnqueueNDRangeKernel then 3 else if st = .clFinish then 4 else 100 }

/-! The claims. -/

/-- Claim C1: for every input length N ≥ 1 and all integer arrays A and B,
if `add_opencl` returns normally then the output buffer satisfies
`output[i] = A[i] + B[i]` for every index `i < N`; the host-side validation
loop guarantees this postcondition because any mismatch raises a failure
instead of returning. -/
theorem add_opencl_ok_output_is_sum (w : CLWorld) (g : Bool) (c a b : Nat → Int)
    (N : Nat) (t : ℚ) (_hN : 1 ≤ N) (h : (add_opencl w g c a b N).1 = .ok t) :
    ∀ i < N, (add_opencl w g c a b N).2.c_host i = a i + b i := by
  obtain ⟨-, hv, -, hc, -, -⟩ := run_ok_spec w g c a b N t h
  intro i hi
  rw [hc]
  exact hv i hi

theorem add_opencl_ok_output_is_sum_witness :
    (1 ≤ 4 ∧ (add_opencl okWorld true hostC hostA hostB 4).1 = .ok 0) ∧
      (add_opencl okWorld true hostC hostA hostB 4).2.c_host 2 = hostA 2 + hostB 2 :=
  ⟨⟨by decide, by with_unfolding_all rfl⟩,
    add_opencl_ok_output_is_sum okWorld true hostC hostA hostB 4 0 (by decide) (by with_unfolding_all rfl)
      2 (by decide)⟩

/-- Claim C2: whenever the program-compilation step (`clBuildProgram`) reports
a non-success status (the earlier steps having succeeded so that compilation
is reached), `add_opencl` raises the compilation-failure condition — the error
whose message is "clBuildProgram" — and performs no device-buffer reads or
writes before aborting, so the caller's output buffer is unchanged. -/
theorem add_opencl_build_failure_aborts_before_transfers (w : CLWorld) (g : Bool)
    (c a b : Nat → Int) (N : Nat)
    (h1 : w.getDeviceIDs_status g = 0) (h2 : w.createContext_ret = true)
    (h3 : w.createCommandQueue_ret = true) (h4 : w.createProgramWithSource_ret = true)
    (h5 : w.buildProgram_status ≠ 0) :
    (add_opencl w g c a b N).1 = .error .clBuildProgram ∧
    Step.message .clBuildProgram = "clBuildProgram" ∧
    (add_opencl w g c a b N).2.c_host = c ∧
    Step.clEnqueueWriteBuffer ∉ (add_opencl w g c a b N).2.trace ∧
    Step.clEnqueueReadBuffer ∉ (add_opencl w g c a b N).2.trace := by
  refine ⟨?_, rfl, ?_, ?_, ?_⟩ <;>
    simp [add_opencl, h1, h2, h3, h4, h5, tick, acquire]

theorem add_opencl_build_failure_aborts_before_transfers_witness :
    (add_opencl buildFailWorld true hostC hostA hostB 4).1 = .error .clBuildProgram ∧
      Step.clEnqueueWriteBuffer ∉ (add_opencl buildFailWorld true hostC hostA hostB 4).2.trace :=
  ⟨(add_opencl_build_failure_aborts_before_transfers buildFailWorld true hostC hostA hostB 4
      rfl rfl rfl rfl (by decide)).1,
    (add_opencl_build_failure_aborts_before_transfers buildFailWorld true hostC hostA hostB 4
      rfl rfl rfl rfl (by decide)).2.2.2.1⟩

/-- Claim C3 is refuted: the code discards the statuses of `clFinish`
(opencl_example.cpp:138) and of the seven `clRelease*` calls (155-161).  On a
platform where the wait step reports a non-success status the run still
returns normally instead of aborting, so "any step that reports a non-success
status aborts the entire operation" and "raises an error iff some step fails"
are both false. -/
theorem add_opencl_error_iff_step_fails_counterexample :
    failsAt finishFailWorld true hostC hostA hostB 4 .clFinish ∧
      (add_opencl finishFailWorld true hostC hostA hostB 4).1 = .ok 0 :=
  ⟨by simp [failsAt, finishFailWorld], by with_unfolding_all rfl⟩

/-- Claim C3 (amended): every CHECKED step — every step whose status the code
tests, which is all of them except the `clFinish` wait and the `clRelease*`
teardown — aborts the whole operation on a non-success status with the single
generic failure naming that step (no retry, no fallback); an abort never
happens at the `clFinish` step; `add_opencl` raises an error if and only if
some checked status is non-success or the validation loop finds a mismatch;
and the discarded statuses of `clFinish` and the seven `clRelease*` calls
cannot influence the run at all. -/
theorem add_opencl_error_iff_checked_step_fails (w : CLWorld) (g : Bool)
    (c a b : Nat → Int) (N : Nat) :
    (∀ e, (add_opencl w g c a b N).1 = .error e →
      failsAt w g c a b N e ∧ e ≠ .clFinish) ∧
    ((∃ e, (add_opencl w g c a b N).1 = .error e) ↔
      ¬ (stepsOk w g ∧ validationOk w g c a b N)) ∧
    (∀ (f : Nat) (rs : Res → Nat),
      add_opencl { w with finish_status := f, release_status := rs } g c a b N =
        add_opencl w g c a b N) := by
  refine ⟨?_, ⟨?_, ?_⟩, fun f rs => rfl⟩
  · intro e h
    exact ⟨(run_error_spec w g c a b N e h).1, run_error_ne_finish w g c a b N e h⟩
  · rintro ⟨e, he⟩ ⟨hs, hv⟩
    exact failsAt_none w g c a b N hs hv e (run_error_ne_finish w g c a b N e he)
      (run_error_spec w g c a b N e he).1
  · intro hnot
    cases hr : (add_opencl w g c a b N).1 with
    | error e => exact ⟨e, rfl⟩
    | ok t =>
      obtain ⟨hs, hv, -⟩ := run_ok_spec w g c a b N t hr
      exact absurd ⟨hs, hv⟩ hnot

theorem add_opencl_error_iff_checked_step_fails_witness :
    failsAt buildFailWorld true hostC hostA hostB 4 .clBuildProgram ∧
      Step.clBuildProgram ≠ Step.clFinish :=
  (add_opencl_error_iff_checked_step_fails buildFailWorld true hostC hostA hostB 4).1
    .clBuildProgram (by with_unfolding_all rfl)

/-- Claim C4: `Timer::elapsed()` returns stop minus start with no
precondition, and on a freshly constructed Timer (both fields default 0)
it returns 0. -/
theorem timer_elapsed_spec :
    (∀ t : Timer, t.elapsed = t.m_stop - t.m_start) ∧ Timer.init.elapsed = 0 :=
  ⟨fun _ => rfl, by simp [Timer.init, Timer.elapsed]⟩

/-- Claim C5: two successful runs on the same platform and inputs, one with
the CPU device class and one with the GPU device class, produce identical
output-buffer contents: the `use_gpu` flag never influences the computed
values. -/
theorem add_opencl_device_class_noninterference (w : CLWorld) (c a b : Nat → Int)
    (N : Nat) (t₁ t₂ : ℚ)
    (hcpu : (add_opencl w false c a b N).1 = .ok t₁)
    (hgpu : (add_opencl w true c a b N).1 = .ok t₂) :
    (add_opencl w false c a b N).2.c_host = (add_opencl w true c a b N).2.c_host := by
  obtain ⟨-, hv₁, -, hc₁, -, -⟩ := run_ok_spec w false c a b N t₁ hcpu
  obtain ⟨-, hv₂, -, hc₂, -, -⟩ := run_ok_spec w true c a b N t₂ hgpu
  rw [hc₁, hc₂]
  funext i
  by_cases hi : i < N
  · rw [show finalOutput w false c a b N i = a i + b i from hv₁ i hi,
      show finalOutput w true c a b N i = a i + b i from hv₂ i hi]
  · simp [finalOutput, hi]

theorem add_opencl_device_class_noninterference_witness :
    (add_opencl okWorld false hostC hostA hostB 4).2.c_host =
      (add_opencl okWorld true hostC hostA hostB 4).2.c_host :=
  add_opencl_device_class_noninterference okWorld hostC hostA hostB 4 0 0
    (by with_unfolding_all rfl) (by with_unfolding_all rfl)

/-- Claim C6: the value a successful `add_opencl` returns is the stopwatch
measurement bracketing exactly the kernel-dispatch-plus-wait sub-step: it
equals the wall-clock duration of `clEnqueueNDRangeKernel` plus that of
`clFinish`, and is independent of the time spent on compilation, transfers,
read-back and validation. -/
theorem add_opencl_times_dispatch_only (w : CLWorld) (g : Bool) (c a b : Nat → Int)
    (N : Nat) (t : ℚ) (h : (add_opencl w g c a b N).1 = .ok t) :
    t = w.dur .clEnqueueNDRangeKernel + w.dur .clFinish :=
  (run_ok_spec w g c a b N t h).2.2.1

theorem add_opencl_times_dispatch_only_witness :
    (add_opencl timedWorld true hostC hostA hostB 4).1 = .ok 7 ∧
      (7 : ℚ) = timedWorld.dur .clEnqueueNDRangeKernel + timedWorld.dur .clFinish :=
  ⟨by with_unfolding_all rfl, add_opencl_times_dispatch_only timedWorld true hostC hostA hostB 4 7 (by with_unfolding_all rfl)⟩

/-- Claim C7: on every successful execution all acquired device resources —
the three buffers, the program, the kernel, the command queue and the
context — are released before returning, while on every aborting execution
nothing is released (the failure path performs no cleanup). -/
theorem add_opencl_release_discipline (w : CLWorld) (g : Bool) (c a b : Nat → Int)
    (N : Nat) :
    (∀ t, (add_opencl w g c a b N).1 = .ok t →
      (add_opencl w g c a b N).2.released = releaseOrder ∧
      (add_opencl w g c a b N).2.acquired = acquireOrder ∧
      ∀ r ∈ (add_opencl w g c a b N).2.acquired,
        r ∈ (add_opencl w g c a b N).2.released) ∧
    (∀ e, (add_opencl w g c a b N).1 = .error e →
      (add_opencl w g c a b N).2.released = []) := by
  constructor
  · intro t h
    obtain ⟨-, -, -, -, hrel, hacq⟩ := run_ok_spec w g c a b N t h
    refine ⟨hrel, hacq, ?_⟩
    intro r hr
    rw [hacq] at hr
    rw [hrel]
    simp only [acquireOrder, List.mem_cons, List.not_mem_nil, or_false] at hr
    rcases hr with rfl | rfl | rfl | rfl | rfl | rfl | rfl <;> simp [releaseOrder]
  · intro e h
    exact (run_error_spec w g c a b N e h).2

theorem add_opencl_release_discipline_witness :
    (add_opencl okWorld true hostC hostA hostB 4).2.released = releaseOrder ∧
      (add_opencl bufFailWorld true hostC hostA hostB 4).2.released = [] :=
  ⟨((add_opencl_release_discipline okWorld true hostC hostA hostB 4).1 0 (by with_unfolding_all rfl)).1,
    (add_opencl_release_discipline bufFailWorld true hostC hostA hostB 4).2
      .clCreateBuffer (by with_unfolding_all rfl)⟩

/-- Claim C8 is refuted on three fronts: the short-option cluster "-cg" is
none of the four listed flags yet sets the selection to GPU (not ignored);
"--" is not a listed flag yet ends option processing, so a later
"--use-gpu" is not processed (the last flag does not win); and an unknown
long option such as "--bogus" sends getopt_long scanning past `main`'s
unterminated longopts table — undefined behaviour rather than being
ignored. -/
theorem main_flag_parsing_counterexample :
    main_use_gpu [] = some false ∧
      main_use_gpu ["-cg"] = some true ∧
      main_use_gpu ["--", "--use-gpu"] = some false ∧
      main_use_gpu ["--bogus"] = none :=
  ⟨by decide, by decide, by decide, by decide⟩

/-- Claim C8 (amended): the device class defaults to CPU; when every earlier
argument keeps the scan going (an option cluster or a skipped non-option), a
trailing `--use-gpu`/`-g` yields GPU and a trailing `--use-cpu`/`-c` yields
CPU — the last processed flag wins; non-option arguments are ignored and do
not change the selection; but "--" ends option processing (everything after
it is not processed), and an unrecognised long option is not ignored: the
lookup scans past the unterminated longopts table and the run has no defined
selection. -/
theorem main_flag_parsing_getopt :
    main_use_gpu [] = some false ∧
    (∀ (xs : List String) (s : String), (∀ x ∈ xs, keepsScanning x = true) →
      optGpu s = true → main_use_gpu (xs ++ [s]) = some true) ∧
    (∀ (xs : List String) (s : String), (∀ x ∈ xs, keepsScanning x = true) →
      optCpu s = true → main_use_gpu (xs ++ [s]) = some false) ∧
    (∀ (xs ys : List String) (s : String), classifyArg s = .nonOption →
      main_use_gpu (xs ++ s :: ys) = main_use_gpu (xs ++ ys)) ∧
    (∀ (xs ys : List String), main_use_gpu (xs ++ "--" :: ys) = main_use_gpu xs) ∧
    (∀ (xs ys : List String) (s : String), (∀ x ∈ xs, keepsScanning x = true) →
      classifyArg s = .undefinedScan → main_use_gpu (xs ++ s :: ys) = none) := by
  refine ⟨rfl, ?_, ?_, ?_, ?_, ?_⟩
  · intro xs s h hs
    rw [main_use_gpu, getopt_loop_append_scan xs false [s] h]
    rcases (by simpa [optGpu] using hs : s = "--use-gpu" ∨ s = "-g") with rfl | rfl
    · exact (by decide : ∀ g, getopt_long_loop g ["--use-gpu"] = some true) _
    · exact (by decide : ∀ g, getopt_long_loop g ["-g"] = some true) _
  · intro xs s h hs
    rw [main_use_gpu, getopt_loop_append_scan xs false [s] h]
    rcases (by simpa [optCpu] using hs : s = "--use-cpu" ∨ s = "-c") with rfl | rfl
    · exact (by decide : ∀ g, getopt_long_loop g ["--use-cpu"] = some false) _
    · exact (by decide : ∀ g, getopt_long_loop g ["-c"] = some false) _
  · intro xs ys s hs
    exact getopt_loop_skip s hs xs false ys
  · intro xs ys
    exact getopt_loop_dashdash xs false ys
  · intro xs ys s h hs
    rw [main_use_gpu, getopt_loop_append_scan xs false (s :: ys) h]
    simp [getopt_long_loop, hs]

theorem main_flag_parsing_getopt_witness :
    main_use_gpu (["--use-cpu"] ++ ["--use-gpu"]) = some true ∧
      main_use_gpu (["-g"] ++ ["-c"]) = some false ∧
      main_use_gpu (["input.dat"] ++ "other.dat" :: ["-g"]) =
        main_use_gpu (["input.dat"] ++ ["-g"]) ∧
      main_use_gpu (["-c"] ++ "--bogus" :: ["-g"]) = none :=
  ⟨main_flag_parsing_getopt.2.1 ["--use-cpu"] "--use-gpu" (by decide) (by decide),
    main_flag_parsing_getopt.2.2.1 ["-g"] "-c" (by decide) (by decide),
    main_flag_parsing_getopt.2.2.2.1 ["input.dat"] ["-g"] "other.dat" (by decide),
    main_flag_parsing_getopt.2.2.2.2.2 ["-c"] ["-g"] "--bogus" (by decide) (by decide)⟩

/-- Claim C9: at the boundary N = 0 the validation loop is empty, so a run
can never abort with the validation failure — it either succeeds (trivially
validating) or surfaces the generic step-named failure of whatever API call
rejected; in particular when the platform rejects the zero-sized buffer
creation (the first N-dependent step), the run raises the buffer-creation
failure before any kernel dispatch occurs. -/
theorem add_opencl_zero_length_boundary (w : CLWorld) (g : Bool) (c a b : Nat → Int) :
    (∀ e, (add_opencl w g c a b 0).1 = .error e → e ≠ .resultValidation) ∧
    (w.getDeviceIDs_status g = 0 → w.createContext_ret = true →
      w.createCommandQueue_ret = true → w.createProgramWithSource_ret = true →
      w.buildProgram_status = 0 → w.createKernel_ret = true →
      w.createKernel_status = 0 →
      (w.createBufferA_ret = false ∨ w.createBufferB_ret = false ∨
        w.createBufferC_ret = false) →
      (add_opencl w g c a b 0).1 = .error .clCreateBuffer ∧
        Step.clEnqueueNDRangeKernel ∉ (add_opencl w g c a b 0).2.trace) := by
  constructor
  · rintro e he rfl
    have hfails := (run_error_spec w g c a b 0 .resultValidation he).1
    exact hfails fun i hi => absurd hi (Nat.not_lt_zero i)
  · intro h1 h2 h3 h4 h5 h6 h7 h8
    constructor
    · rcases h8 with h8 | h8 | h8 <;>
        simp [add_opencl, h1, h2, h3, h4, h5, h6, h7, h8, tick, acquire]
    · rcases h8 with h8 | h8 | h8 <;>
        simp [add_opencl, h1, h2, h3, h4, h5, h6, h7, h8, tick, acquire,
          apply_ite AState.trace]

theorem add_opencl_zero_length_boundary_witness :
    ((add_opencl bufFailWorld true hostC hostA hostB 0).1 = .error .clCreateBuffer ∧
      Step.clEnqueueNDRangeKernel ∉ (add_opencl bufFailWorld true hostC hostA hostB 0).2.trace) ∧
      Step.clCreateBuffer ≠ Step.resultValidation :=
  ⟨(add_opencl_zero_length_boundary bufFailWorld true hostC hostA hostB).2
      rfl rfl rfl rfl rfl rfl rfl (Or.inl rfl),
    (add_opencl_zero_length_boundary bufFailWorld true hostC hostA hostB).1
      .clCreateBuffer (by with_unfolding_all rfl)⟩

/-- Claim C10: `Timer::start()` writes only the start field and leaves the
stop field unchanged, `Timer::stop()` writes only the stop field and leaves
the start field unchanged; consequently, over any sequence of start/stop
calls, each field holds exactly the instant of the last call that targets it
(or its original value when no such call occurs). -/
theorem timer_frame_conditions :
    (∀ (t : Timer) (x : ℚ), (t.start x).m_stop = t.m_stop ∧ (t.start x).m_start = x ∧
      (t.stop x).m_start = t.m_start ∧ (t.stop x).m_stop = x) ∧
    (∀ (t : Timer) (ops : List TimerOp),
      (Timer.runOps t ops).m_start = lastStartVal t.m_start ops ∧
      (Timer.runOps t ops).m_stop = lastStopVal t.m_stop ops) :=
  ⟨fun _ _ => ⟨rfl, rfl, rfl, rfl⟩, runOps_fields⟩

end OpenCLDemo
